import Mathlib

/-!
Verification of the PH Legal Document Generator backend.

This file gives a shallow embedding of the repository (src/main.py and
src/schemas.py) and proves theorems about the template catalog, the
rendering engine, the listing logic, document generation and startup
seeding.  Pure Python functions become Lean functions on `String` /
`List Char`; the document store (database.py, which only the spec
describes) is modelled as explicit state.
-/

/-! ## Character classes used by the rendering engine -/

/-- Models Python's whitespace class as used by `\s` in the substitution
regex and by `str.strip()` / `str.isspace()` in `main.py`.  Covers the
ASCII whitespace characters plus the common one-byte Unicode whitespace
code points; the remaining Unicode space category is not modelled (no
template or claim involves it). -/
def isPySpace (c : Char) : Bool :=
  c == ' ' || c == '\t' || c == '\n' || c == '\r' || c == '\x0b' || c == '\x0c' ||
  c == '\x1c' || c == '\x1d' || c == '\x1e' || c == '\x1f' || c == '\x85' || c == '\xa0'

/-- The character class `[a-zA-Z0-9_.-]` of the placeholder-key regex in
`render_template_text` (src/main.py line 409).  `Char.isAlpha` and
`Char.isDigit` are exactly the ASCII ranges. -/
def isKeyChar (c : Char) : Bool :=
  c.isAlpha || c.isDigit || c == '_' || c == '.' || c == '-'

/-! ## Answer values

`answers` is a `Dict[str, Any]` of JSON scalars in the source; `repl`
stringifies whatever it finds with Python `str()`. -/

/-- A JSON-compatible scalar answer value (string, number, boolean). -/
inductive Value where
  | str : String → Value
  | int : Int → Value
  | bool : Bool → Value
deriving DecidableEq

/-- Python `str()` of an answer value. -/
def Value.toText : Value → String
  | .str s => s
  | .int n => toString n
  | .bool b => if b then "True" else "False"

/-! ## Data model (src/schemas.py) -/

/-- One choice of a select/multiselect question (schemas.py `QuestionOption`). -/
structure QuestionOption where
  label : String
  value : String
deriving DecidableEq

/-- The `Literal[...]` question type of schemas.py `Question.type`. -/
inductive QType where
  | text | textarea | number | date | select | multiselect | email | phone
deriving DecidableEq

/-- One field of a template intake form (schemas.py `Question`). -/
structure Question where
  key : String
  label : String
  help : Option String := none
  type : QType := QType.text
  required : Bool := true
  placeholder : Option String := none
  options : Option (List QuestionOption) := none
deriving DecidableEq

/-- A catalog entry for one document type (schemas.py `LegalTemplate`). -/
structure LegalTemplate where
  key : String
  title : String
  description : Option String := none
  category : String := "General"
  jurisdiction : String := "Republic of the Philippines"
  requires_notarization : Bool := true
  questions : List Question
  content : String
  acknowledgement : Option String := none
deriving DecidableEq

/-- The output record of one generation (schemas.py `GeneratedDocument`). -/
structure GeneratedDocument where
  template_key : String
  answers : List (String × Value)
  rendered_text : String
  rendered_html : Option String := none
  title : String
deriving DecidableEq

/-! ## Rendering engine (src/main.py `render_template_text`)

The source substitutes with
`re.sub(r"\{\{\s*([a-zA-Z0-9_\.\-]+)\s*\}\}", repl, template)`.
Python's leftmost, non-overlapping scan of this particular pattern is
deterministic (the classes `\s`, the key class and `}` are pairwise
disjoint, so the greedy quantifiers never backtrack), which the
`matchToken` scanner below implements directly. -/

/-- Tries to match the placeholder-token regex at the head of the
character list.  On success returns the captured key and the characters
after the token. -/
def matchToken (cs : List Char) : Option (List Char × List Char) :=
  match cs with
  | c1 :: c2 :: rest =>
    if c1 = '{' ∧ c2 = '{' then
      let rest1 := rest.dropWhile isPySpace
      let key := rest1.takeWhile isKeyChar
      let rest2 := (rest1.dropWhile isKeyChar).dropWhile isPySpace
      if key ≠ [] ∧ rest2.take 2 = ['}', '}'] then some (key, rest2.drop 2)
      else none
    else none
  | _ => none

/-- The `repl` callback of `render_template_text`:
`str(answers.get(key, "{{" + key + "}}"))`. -/
def replacement (answers : List (String × Value)) (key : List Char) : List Char :=
  match List.lookup (String.mk key) answers with
  | some v => v.toText.data
  | none => '{' :: '{' :: (key ++ ['}', '}'])

/-- Fuel-indexed scan over the template characters; the fuel (always
instantiated with the length of the list) only makes the recursion
structural. -/
def renderAux (answers : List (String × Value)) : Nat → List Char → List Char
  | _, [] => []
  | 0, cs => cs
  | n + 1, c :: cs =>
    match matchToken (c :: cs) with
    | some (key, rest) => replacement answers key ++ renderAux answers n rest
    | none => c :: renderAux answers n cs

/-- The substitution scan on a character list. -/
def renderList (answers : List (String × Value)) (cs : List Char) : List Char :=
  renderAux answers cs.length cs

/-- src/main.py `render_template_text(template, answers)`. -/
def render_template_text (template : String) (answers : List (String × Value)) : String :=
  String.mk (renderList answers template.data)

/-! ## Text-to-HTML conversion (src/main.py `text_to_html`) -/

/-- Python `text.split("\n")` on the character level (the separator is
the single character `'\n'`). -/
def splitLines : List Char → List (List Char)
  | [] => [[]]
  | c :: cs =>
    if c = '\n' then [] :: splitLines cs
    else
      match splitLines cs with
      | [] => [[c]]
      | l :: ls => (c :: l) :: ls

/-- The list comprehension of `text_to_html`:
`[f"<p>{line}</p>" if line.strip() else "<br/>" for line in lines]`.
`line.strip()` is truthy exactly when the line has a non-whitespace
character. -/
def html_lines (text : String) : List String :=
  (splitLines text.data).map fun l =>
    if l.any (fun c => !(isPySpace c)) then "<p>" ++ String.mk l ++ "</p>" else "<br/>"

/-- Python `"\n".join(strings)`. -/
def joinLines : List String → String
  | [] => ""
  | [s] => s
  | s :: rest => s ++ "\n" ++ joinLines rest

/-- src/main.py `text_to_html(text)`. -/
def text_to_html (text : String) : String :=
  joinLines (html_lines text)

/-! ## Template catalog (src/main.py `DEFAULT_TEMPLATES`, lines 60-373)

Each entry of the Python list literal is transcribed as a named
definition; `DEFAULT_TEMPLATES` is the list of the eight entries in
source order.  Apostrophes inside the literal texts are written with
the escape `\x27`. -/

def tpl_affidavit_of_loss : LegalTemplate :=
  { key := "affidavit_of_loss"
    title := "Affidavit of Loss"
    category := "Affidavits"
    description := some "Used to declare the loss of an item such as an ID, license, or document."
    questions := [
      { key := "full_name", label := "Full Name", type := QType.text, placeholder := some "Juan Dela Cruz" },
      { key := "civil_status", label := "Civil Status", type := QType.select, options := some [
          { label := "Single", value := "Single" },
          { label := "Married", value := "Married" },
          { label := "Widowed", value := "Widowed" },
          { label := "Separated", value := "Separated" }] },
      { key := "citizenship", label := "Citizenship", type := QType.text, placeholder := some "Filipino" },
      { key := "address", label := "Address", type := QType.textarea },
      { key := "id_type", label := "Gov\x27t ID Presented", type := QType.text, placeholder := some "Driver\x27s License" },
      { key := "id_number", label := "ID Number", type := QType.text },
      { key := "lost_item", label := "Item Lost", type := QType.text, placeholder := some "Company ID" },
      { key := "place_lost", label := "Place Lost", type := QType.text },
      { key := "date_lost", label := "Date Lost", type := QType.date },
      { key := "circumstances", label := "Circumstances of Loss", type := QType.textarea },
      { key := "city", label := "City/Municipality of Notarization", type := QType.text, placeholder := some "Quezon City" }]
    content := "Republic of the Philippines\n\nAFFIDAVIT OF LOSS\n\nI, {{full_name}}, of legal age, {{civil_status}}, Filipino, and a resident of {{address}}, after having been duly sworn in accordance with law, do hereby depose and state that:\n\n1. That I am the lawful owner/holder of a {{lost_item}};\n2. That on or about {{date_lost}} at {{place_lost}}, the aforesaid item was lost under the following circumstances: {{circumstances}};\n3. That despite diligent efforts to locate the said item, the same could not be found;\n4. That I am executing this affidavit to attest to the truth of the foregoing and for whatever legal purpose it may serve.\n\nIN WITNESS WHEREOF, I have hereunto set my hand this ___ day of __________, 20___ at {{city}}, Philippines.\n\nAffiant: {{full_name}}\nID Presented: {{id_type}} ({{id_number}})\n"
    acknowledgement := some "SUBSCRIBED AND SWORN to before me this ___ day of __________, 20___ in {{city}}, Philippines, affiant exhibited to me his/her competent evidence of identity indicated above.\n\nDoc. No. ______;\nPage No. ______;\nBook No. ______;\nSeries of 20___."
    requires_notarization := true
    jurisdiction := "Republic of the Philippines" }

def tpl_deed_of_absolute_sale : LegalTemplate :=
  { key := "deed_of_absolute_sale"
    title := "Deed of Absolute Sale"
    category := "Contracts"
    description := some "Agreement for the sale of personal property between a seller and buyer."
    questions := [
      { key := "seller_name", label := "Seller Name", type := QType.text },
      { key := "seller_address", label := "Seller Address", type := QType.textarea },
      { key := "buyer_name", label := "Buyer Name", type := QType.text },
      { key := "buyer_address", label := "Buyer Address", type := QType.textarea },
      { key := "property_description", label := "Property Description", type := QType.textarea, placeholder := some "e.g., 2016 Toyota Vios (Engine No..., Plate No...)" },
      { key := "sale_price", label := "Purchase Price (PHP)", type := QType.number },
      { key := "city", label := "City/Municipality", type := QType.text },
      { key := "date", label := "Date of Execution", type := QType.date }]
    content := "Republic of the Philippines\n\nDEED OF ABSOLUTE SALE\n\nKNOW ALL MEN BY THESE PRESENTS:\n\nThis Deed made and executed on {{date}} at {{city}}, Philippines by and between \n{{seller_name}}, of legal age, Filipino, and with address at {{seller_address}} (the \x27SELLER\x27), and \n{{buyer_name}}, of legal age, Filipino, and with address at {{buyer_address}} (the \x27BUYER\x27);\n\nWITNESSETH: That for and in consideration of the sum of Philippine Pesos: {{sale_price}}, the SELLER hereby sells, transfers and conveys unto the BUYER the following property:\n\n{{property_description}}\n\nThe SELLER warrants that the property is free from all liens and encumbrances.\n\nIN WITNESS WHEREOF, the parties have hereunto set their hands this {{date}} at {{city}}, Philippines.\n\nSELLER: {{seller_name}}\nBUYER: {{buyer_name}}\n"
    acknowledgement := some "BEFORE ME, a Notary Public for and in {{city}}, Philippines, this {{date}}, personally appeared {{seller_name}} and {{buyer_name}} who are known to me and who executed the foregoing instrument and acknowledged that the same is their free act and deed.\n\nDoc. No. ______; Page No. ______; Book No. ______; Series of 20___."
    requires_notarization := true
    jurisdiction := "Republic of the Philippines" }

def tpl_special_power_of_attorney : LegalTemplate :=
  { key := "special_power_of_attorney"
    title := "Special Power of Attorney"
    category := "Affidavits / SPA"
    description := some "Authorizes an Attorney-in-Fact to act on specific matters."
    questions := [
      { key := "principal_name", label := "Principal\x27s Full Name", type := QType.text },
      { key := "principal_civil_status", label := "Principal Civil Status", type := QType.select, options := some [
          { label := "Single", value := "Single" },
          { label := "Married", value := "Married" },
          { label := "Widowed", value := "Widowed" },
          { label := "Separated", value := "Separated" }] },
      { key := "principal_citizenship", label := "Principal Citizenship", type := QType.text, placeholder := some "Filipino" },
      { key := "principal_address", label := "Principal Address", type := QType.textarea },
      { key := "agent_name", label := "Attorney-in-Fact Full Name", type := QType.text },
      { key := "agent_address", label := "Attorney-in-Fact Address", type := QType.textarea },
      { key := "powers", label := "Specific Powers Granted", type := QType.textarea, placeholder := some "e.g., to sell/manage a property, sign documents, receive payments" },
      { key := "validity", label := "Validity/Limitations", type := QType.textarea, placeholder := some "e.g., valid for six (6) months from date of execution" },
      { key := "city", label := "City/Municipality", type := QType.text },
      { key := "date", label := "Date", type := QType.date }]
    content := "Republic of the Philippines\n\nSPECIAL POWER OF ATTORNEY\n\nKNOW ALL MEN BY THESE PRESENTS:\n\nI, {{principal_name}}, of legal age, {{principal_civil_status}}, {{principal_citizenship}}, and a resident of {{principal_address}}, do hereby NAME, CONSTITUTE and APPOINT {{agent_name}}, of legal age, and a resident of {{agent_address}}, as my true and lawful ATTORNEY-IN-FACT, to do and perform the following acts and deeds in my name, place and stead:\n\n{{powers}}\n\nThis authority shall be {{validity}}.\n\nIN WITNESS WHEREOF, I have hereunto set my hand this {{date}} at {{city}}, Philippines.\n\nPrincipal: {{principal_name}}\nAttorney-in-Fact: {{agent_name}}\n"
    acknowledgement := some "BEFORE ME, a Notary Public for and in {{city}}, this {{date}}, personally appeared {{principal_name}} who is known to me and who acknowledged to me that the foregoing instrument is his/her free act and deed.\n\nDoc. No. ______; Page No. ______; Book No. ______; Series of 20___."
    requires_notarization := true
    jurisdiction := "Republic of the Philippines" }

def tpl_affidavit_of_support_and_consent : LegalTemplate :=
  { key := "affidavit_of_support_and_consent"
    title := "Affidavit of Support and Consent"
    category := "Affidavits"
    description := some "Affiant undertakes financial support and gives consent (often for minors/passport/travel)."
    questions := [
      { key := "affiant_name", label := "Affiant Full Name", type := QType.text },
      { key := "affiant_civil_status", label := "Civil Status", type := QType.select, options := some [
          { label := "Single", value := "Single" },
          { label := "Married", value := "Married" },
          { label := "Widowed", value := "Widowed" },
          { label := "Separated", value := "Separated" }] },
      { key := "affiant_citizenship", label := "Citizenship", type := QType.text, placeholder := some "Filipino" },
      { key := "affiant_address", label := "Address", type := QType.textarea },
      { key := "beneficiary_name", label := "Beneficiary/Minor Name", type := QType.text },
      { key := "relationship", label := "Relationship to Beneficiary", type := QType.text, placeholder := some "Parent/Guardian" },
      { key := "purpose", label := "Purpose of Support/Consent", type := QType.textarea, placeholder := some "e.g., travel, passport application, schooling" },
      { key := "city", label := "City/Municipality", type := QType.text },
      { key := "date", label := "Date", type := QType.date }]
    content := "Republic of the Philippines\n\nAFFIDAVIT OF SUPPORT AND CONSENT\n\nI, {{affiant_name}}, of legal age, {{affiant_civil_status}}, {{affiant_citizenship}}, and a resident of {{affiant_address}}, after having been duly sworn in accordance with law, depose and state that:\n\n1. That I am the {{relationship}} of {{beneficiary_name}};\n2. That I hereby undertake to provide financial support as may be necessary;\n3. That I likewise give my full consent for the purpose of {{purpose}};\n4. That I am executing this affidavit to attest to the truth of the foregoing.\n\nIN WITNESS WHEREOF, I have hereunto set my hand this {{date}} in {{city}}, Philippines.\n\nAffiant: {{affiant_name}}\n"
    acknowledgement := some "SUBSCRIBED AND SWORN to before me this {{date}} in {{city}}, Philippines, affiant exhibited to me competent evidence of identity.\n\nDoc. No. ______; Page No. ______; Book No. ______; Series of 20___."
    requires_notarization := true
    jurisdiction := "Republic of the Philippines" }

def tpl_affidavit_of_discrepancy : LegalTemplate :=
  { key := "affidavit_of_discrepancy"
    title := "Affidavit of Discrepancy"
    category := "Affidavits"
    description := some "Explains discrepancies in names or entries across records."
    questions := [
      { key := "affiant_name", label := "Affiant Full Name", type := QType.text },
      { key := "civil_status", label := "Civil Status", type := QType.select, options := some [
          { label := "Single", value := "Single" },
          { label := "Married", value := "Married" },
          { label := "Widowed", value := "Widowed" },
          { label := "Separated", value := "Separated" }] },
      { key := "citizenship", label := "Citizenship", type := QType.text, placeholder := some "Filipino" },
      { key := "address", label := "Address", type := QType.textarea },
      { key := "correct_entry", label := "Correct Entry (Name/Date/etc.)", type := QType.text },
      { key := "erroneous_entry", label := "Erroneous Entry as Appearing", type := QType.text },
      { key := "record_type", label := "Record Type", type := QType.text, placeholder := some "e.g., Birth Certificate" },
      { key := "agency", label := "Issuing Agency/Office", type := QType.text, placeholder := some "e.g., PSA" },
      { key := "city", label := "City/Municipality", type := QType.text },
      { key := "date", label := "Date", type := QType.date }]
    content := "Republic of the Philippines\n\nAFFIDAVIT OF DISCREPANCY\n\nI, {{affiant_name}}, of legal age, {{civil_status}}, {{citizenship}}, and a resident of {{address}}, after being duly sworn in accordance with law, depose and state:\n\n1. That there exists a discrepancy in my {{record_type}} issued by {{agency}};\n2. That the correct entry should be: {{correct_entry}}, but it appears as: {{erroneous_entry}};\n3. That this affidavit is executed to explain and rectify said discrepancy.\n\nIN WITNESS WHEREOF, I have hereunto set my hand this {{date}} at {{city}}, Philippines.\n\nAffiant: {{affiant_name}}\n"
    acknowledgement := some "SUBSCRIBED AND SWORN to before me this {{date}} in {{city}}, Philippines, affiant exhibited competent evidence of identity.\n\nDoc. No. ______; Page No. ______; Book No. ______; Series of 20___."
    requires_notarization := true
    jurisdiction := "Republic of the Philippines" }

def tpl_promissory_note : LegalTemplate :=
  { key := "promissory_note"
    title := "Promissory Note"
    category := "Contracts"
    description := some "Promise to pay a sum under specified terms."
    questions := [
      { key := "debtor_name", label := "Debtor Name", type := QType.text },
      { key := "debtor_address", label := "Debtor Address", type := QType.textarea },
      { key := "creditor_name", label := "Creditor Name", type := QType.text },
      { key := "amount", label := "Principal Amount (PHP)", type := QType.number },
      { key := "interest", label := "Interest Rate (% per annum)", type := QType.number, placeholder := some "e.g., 12" },
      { key := "due_date", label := "Due Date", type := QType.date },
      { key := "city", label := "City/Municipality", type := QType.text },
      { key := "date", label := "Date of Execution", type := QType.date }]
    content := "Republic of the Philippines\n\nPROMISSORY NOTE\n\nFor value received, I, {{debtor_name}}, residing at {{debtor_address}}, hereby promise to pay {{creditor_name}} the sum of Philippine Pesos: {{amount}}, with interest at the rate of {{interest}}% per annum, payable on or before {{due_date}}.\n\nIn case of default, the undersigned agrees to pay attorney\x27s fees and costs as may be allowed by law.\n\nIN WITNESS WHEREOF, I have set my hand this {{date}} at {{city}}, Philippines.\n\nDebtor: {{debtor_name}}\n"
    acknowledgement := some "ACKNOWLEDGED before me this {{date}} in {{city}}, Philippines by {{debtor_name}}, who is known to me and who executed the foregoing instrument.\n\nDoc. No. ______; Page No. ______; Book No. ______; Series of 20___."
    requires_notarization := true
    jurisdiction := "Republic of the Philippines" }

def tpl_lease_agreement_residential : LegalTemplate :=
  { key := "lease_agreement_residential"
    title := "Residential Lease Agreement"
    category := "Contracts"
    description := some "Simple lease for residential property."
    questions := [
      { key := "lessor_name", label := "Lessor (Landlord) Name", type := QType.text },
      { key := "lessor_address", label := "Lessor Address", type := QType.textarea },
      { key := "lessee_name", label := "Lessee (Tenant) Name", type := QType.text },
      { key := "lessee_address", label := "Lessee Address", type := QType.textarea },
      { key := "property_address", label := "Leased Premises Address", type := QType.textarea },
      { key := "term_months", label := "Lease Term (months)", type := QType.number },
      { key := "monthly_rent", label := "Monthly Rent (PHP)", type := QType.number },
      { key := "deposit", label := "Security Deposit (PHP)", type := QType.number },
      { key := "advance", label := "Advance Rent (PHP)", type := QType.number },
      { key := "start_date", label := "Start Date", type := QType.date },
      { key := "city", label := "City/Municipality", type := QType.text },
      { key := "date", label := "Date", type := QType.date }]
    content := "Republic of the Philippines\n\nRESIDENTIAL LEASE AGREEMENT\n\nThis Lease Agreement is made this {{date}} in {{city}}, Philippines, by and between {{lessor_name}} (LESSOR), residing at {{lessor_address}}, and {{lessee_name}} (LESSEE), residing at {{lessee_address}}.\n\n1. Premises: {{property_address}}\n2. Term: {{term_months}} months commencing on {{start_date}}\n3. Rent: PHP {{monthly_rent}} per month, payable in advance every first day of the month\n4. Deposits: Security Deposit PHP {{deposit}}; Advance Rent PHP {{advance}}\n5. Utilities and maintenance for the account of the LESSEE unless otherwise agreed.\n\nIN WITNESS WHEREOF, the parties have hereunto set their hands on the date and place first above written.\n\nLESSOR: {{lessor_name}}\nLESSEE: {{lessee_name}}\n"
    acknowledgement := some "BEFORE ME, a Notary Public for and in {{city}}, this {{date}}, personally appeared {{lessor_name}} and {{lessee_name}} who acknowledged to me that the foregoing instrument is their free act and deed.\n\nDoc. No. ______; Page No. ______; Book No. ______; Series of 20___."
    requires_notarization := true
    jurisdiction := "Republic of the Philippines" }

def tpl_consent_to_travel_minor : LegalTemplate :=
  { key := "consent_to_travel_minor"
    title := "Parental Consent for Minor to Travel"
    category := "Affidavits"
    description := some "Allows a minor child to travel with consent of parent/guardian."
    questions := [
      { key := "parent_name", label := "Parent/Guardian Name", type := QType.text },
      { key := "parent_address", label := "Parent Address", type := QType.textarea },
      { key := "minor_name", label := "Minor\x27s Full Name", type := QType.text },
      { key := "minor_birthdate", label := "Minor\x27s Birthdate", type := QType.date },
      { key := "companion_name", label := "Companion/Guardian During Travel", type := QType.text },
      { key := "destination", label := "Destination", type := QType.text },
      { key := "travel_dates", label := "Travel Dates / Duration", type := QType.text },
      { key := "purpose", label := "Purpose of Travel", type := QType.textarea },
      { key := "city", label := "City/Municipality", type := QType.text },
      { key := "date", label := "Date", type := QType.date }]
    content := "Republic of the Philippines\n\nPARENTAL CONSENT FOR MINOR TO TRAVEL\n\nI, {{parent_name}}, of legal age and residing at {{parent_address}}, hereby give my full consent for my minor child {{minor_name}} (born on {{minor_birthdate}}) to travel to {{destination}} on {{travel_dates}} under the care and supervision of {{companion_name}} for the purpose of {{purpose}}.\n\nI assume full responsibility for the foregoing consent.\n\nIN WITNESS WHEREOF, I have hereunto set my hand this {{date}} at {{city}}, Philippines.\n\nParent/Guardian: {{parent_name}}\n"
    acknowledgement := some "SUBSCRIBED AND SWORN to before me this {{date}} in {{city}}, Philippines, affiant exhibited competent evidence of identity.\n\nDoc. No. ______; Page No. ______; Book No. ______; Series of 20___."
    requires_notarization := true
    jurisdiction := "Republic of the Philippines" }

/-- The list literal `DEFAULT_TEMPLATES` of src/main.py, in source order. -/
def DEFAULT_TEMPLATES : List LegalTemplate :=
  [tpl_affidavit_of_loss, tpl_deed_of_absolute_sale, tpl_special_power_of_attorney,
   tpl_affidavit_of_support_and_consent, tpl_affidavit_of_discrepancy, tpl_promissory_note,
   tpl_lease_agreement_residential, tpl_consent_to_travel_minor]

/-! ## Persistence model

`database.py` is imported by src/main.py but is not part of src/; its
observable behavior is taken from the specification. -/

/-- Modelled from the spec: the persistence layer of `database.py`
(absent from src/) keeps two collections, named after the lower-cased
schema names.  `get_documents(name)` returns all records of the named
collection and `create_document(name, record)` appends one record.  A
raw record read from the `legaltemplate` collection (after `_id` is
popped) either fits the `LegalTemplate` shape — `some tpl`, the
successful `LegalTemplate(**d)` coercion — or fails structural
validation, which is modelled as `none`. -/
structure DB where
  legaltemplate : List (Option LegalTemplate)
  generateddocument : List GeneratedDocument
deriving DecidableEq

/-- The loop body of `list_templates` (src/main.py lines 424-435): walk
the raw documents, drop the ones whose coercion raised, and keep a
template only when its key was not seen before. -/
def listLoop : List (Option LegalTemplate) → List String → List LegalTemplate
  | [], _ => []
  | none :: ds, seen => listLoop ds seen
  | some t :: ds, seen =>
    if seen.contains t.key then listLoop ds seen
    else t :: listLoop ds (t.key :: seen)

/-- src/main.py `list_templates` (`GET /api/templates`): read the raw
documents (`[]` when the store handle is `None`), validate and
de-duplicate, and fall back to `DEFAULT_TEMPLATES` when nothing usable
came back. -/
def list_templates (db : Option DB) : List LegalTemplate :=
  let docs := match db with
    | some d => d.legaltemplate
    | none => []
  let out := listLoop docs []
  if out.isEmpty then DEFAULT_TEMPLATES else out

/-- src/main.py `GenerateRequest` (the `POST /api/generate` body). -/
structure GenerateRequest where
  template_key : String
  answers : List (String × Value)
  as_html : Bool := true

/-- Modelled from the spec: the best-effort
`create_document("generateddocument", doc)` call of `generate_document`
— appends the record when the store is available, and is a swallowed
failure (store unchanged) when it is not. -/
def insertGenerated (db : Option DB) (doc : GeneratedDocument) : Option DB :=
  match db with
  | none => none
  | some d => some { d with generateddocument := d.generateddocument ++ [doc] }

/-- src/main.py `generate_document` (`POST /api/generate`).  The
`HTTPException(404, "Template not found")` branch is the `Except.error`
case; the second component is the resulting store state. -/
def generate_document (db : Option DB) (req : GenerateRequest) :
    Except String GeneratedDocument × Option DB :=
  let templates := list_templates db
  match templates.find? (fun t => t.key == req.template_key) with
  | none => (Except.error "Template not found", db)
  | some tpl =>
    let rendered_text := render_template_text tpl.content req.answers
    let ack_text := render_template_text (tpl.acknowledgement.getD "") req.answers
    let full_text :=
      if ack_text.data.any (fun c => !(isPySpace c)) then rendered_text ++ "\n\n" ++ ack_text
      else rendered_text
    let rendered_html := if req.as_html then some (text_to_html full_text) else none
    let doc : GeneratedDocument :=
      { template_key := tpl.key
        answers := req.answers
        rendered_text := full_text
        rendered_html := rendered_html
        title := tpl.title }
    (Except.ok doc, insertGenerated db doc)

/-- src/main.py `seed_templates_if_empty`: when the store is available
and the `legaltemplate` collection has no documents, insert every
default template one at a time (each insert modelled from the spec as
an append of a record that parses back to the template). -/
def seed_templates_if_empty (db : Option DB) : Option DB :=
  match db with
  | none => none
  | some d =>
    if d.legaltemplate.length = 0 then
      some { d with legaltemplate := d.legaltemplate ++ DEFAULT_TEMPLATES.map some }
    else some d

/-! ## Spec-side reference definitions

These follow the words of the specification, to be compared with the
source-derived functions above. -/

/-- Spec-side: keep only the first occurrence of each key, preserving
encounter order ("de-duplicates by `key` (first occurrence wins)"). -/
def dedupKeys : List LegalTemplate → List LegalTemplate
  | [] => []
  | t :: ts => t :: dedupKeys (ts.filter fun u => !(u.key == t.key))
termination_by l => l.length
decreasing_by
  simp only [List.length_cons]
  exact Nat.lt_succ_of_le (List.length_filter_le _ _)

/-- A structured template: literal text free of opening braces,
interleaved with placeholder tokens.  `tok ws1 k ws2` denotes the token
text `{{` + ws1 + k + ws2 + `}}`. -/
inductive Chunk where
  | lit : String → Chunk
  | tok : String → String → String → Chunk

/-- The template text denoted by a chunk list. -/
def flattenChunks : List Chunk → List Char
  | [] => []
  | Chunk.lit s :: rest => s.data ++ flattenChunks rest
  | Chunk.tok ws1 k ws2 :: rest =>
    '{' :: '{' :: (ws1.data ++ (k.data ++ (ws2.data ++ ('}' :: '}' :: flattenChunks rest))))

/-- Spec-side rendering of one chunk: literal text passes through; a
token is replaced by the textual form of the mapped value when its key
is present, and by the literal `{{key}}` otherwise. -/
def renderChunk (answers : List (String × Value)) : Chunk → String
  | Chunk.lit s => s
  | Chunk.tok _ k _ =>
    match List.lookup k answers with
    | some v => v.toText
    | none => "\x7b\x7b" ++ k ++ "\x7d\x7d"

/-- Spec-side rendering of a chunk list, as characters. -/
def renderedChunks (answers : List (String × Value)) : List Chunk → List Char
  | [] => []
  | c :: rest => (renderChunk answers c).data ++ renderedChunks answers rest

/-- Well-formedness of a chunk: literal text has no opening brace;
token whitespace consists of whitespace characters (never key
characters); the key is a non-empty run of key characters (never
whitespace). -/
def chunkWF : Chunk → Bool
  | Chunk.lit s => s.data.all fun c => !(c == '{')
  | Chunk.tok ws1 k ws2 =>
    (ws1.data.all fun c => isPySpace c && !(isKeyChar c)) &&
    (!(k.data.isEmpty) && (k.data.all fun c => isKeyChar c && !(isPySpace c))) &&
    (ws2.data.all fun c => isPySpace c && !(isKeyChar c))

/-! ## Helper lemmas about the scanner -/

theorem dropWhile_length_le {α : Type} (p : α → Bool) (l : List α) :
    (l.dropWhile p).length ≤ l.length := by
  induction l with
  | nil => simp [List.dropWhile]
  | cons c cs ih =>
    rw [List.dropWhile]
    cases h : p c with
    | true => exact Nat.le_succ_of_le ih
    | false => simp

theorem matchToken_length {cs k rest : List Char} (h : matchToken cs = some (k, rest)) :
    rest.length < cs.length := by
  match cs with
  | [] => simp [matchToken] at h
  | [c] => simp [matchToken] at h
  | c1 :: c2 :: rest0 =>
    simp only [matchToken] at h
    split_ifs at h with h1 h2
    simp only [Option.some.injEq, Prod.mk.injEq] at h
    obtain ⟨-, hr⟩ := h
    subst hr
    obtain ⟨-, htake⟩ := h2
    set rest2 := ((rest0.dropWhile isPySpace).dropWhile isKeyChar).dropWhile isPySpace with hr2
    have h2' : rest2.length ≤ rest0.length := by
      calc rest2.length ≤ ((rest0.dropWhile isPySpace).dropWhile isKeyChar).length :=
            dropWhile_length_le _ _
        _ ≤ (rest0.dropWhile isPySpace).length := dropWhile_length_le _ _
        _ ≤ rest0.length := dropWhile_length_le _ _
    have h3 : (rest2.take 2).length = 2 := by rw [htake]; rfl
    have h4 : (rest2.take 2).length = min 2 rest2.length := List.length_take 2 rest2
    have h5 : (rest2.drop 2).length = rest2.length - 2 := List.length_drop 2 rest2
    simp only [List.length_cons]
    omega

theorem renderAux_fuel (a : List (String × Value)) :
    ∀ n m (cs : List Char), cs.length ≤ n → cs.length ≤ m →
      renderAux a n cs = renderAux a m cs := by
  intro n
  induction n with
  | zero =>
    intro m cs hn _
    have : cs = [] := List.eq_nil_of_length_eq_zero (Nat.le_zero.mp hn)
    subst this
    cases m <;> rfl
  | succ n ih =>
    intro m cs hn hm
    cases cs with
    | nil => cases m <;> rfl
    | cons c cs' =>
      cases m with
      | zero => simp at hm
      | succ m' =>
        simp only [List.length_cons, Nat.succ_le_succ_iff] at hn hm
        simp only [renderAux]
        cases h : matchToken (c :: cs') with
        | some pr =>
          obtain ⟨key, rest⟩ := pr
          have hlen := matchToken_length h
          simp only [List.length_cons] at hlen
          exact congrArg (fun x => replacement a key ++ x)
            (ih m' rest (by omega) (by omega))
        | none =>
          exact congrArg (List.cons c) (ih m' cs' hn hm)

theorem renderList_cons_none {a : List (String × Value)} {c : Char} {cs : List Char}
    (h : matchToken (c :: cs) = none) :
    renderList a (c :: cs) = c :: renderList a cs := by
  unfold renderList
  simp only [List.length_cons, renderAux, h]

theorem renderList_cons_some {a : List (String × Value)} {c : Char} {cs key rest : List Char}
    (h : matchToken (c :: cs) = some (key, rest)) :
    renderList a (c :: cs) = replacement a key ++ renderList a rest := by
  have hlen := matchToken_length h
  simp only [List.length_cons] at hlen
  unfold renderList
  simp only [List.length_cons, renderAux, h]
  exact congrArg (fun x => replacement a key ++ x)
    (renderAux_fuel a cs.length rest.length rest (by omega) (Nat.le_refl _))

theorem matchToken_not_lbrace {c : Char} {cs : List Char} (h : ¬ c = '{') :
    matchToken (c :: cs) = none := by
  cases cs with
  | nil => rfl
  | cons c2 cs' => simp [matchToken, h]

theorem renderList_append_lit {a : List (String × Value)} :
    ∀ (l r : List Char), (∀ c ∈ l, ¬ c = '{') →
      renderList a (l ++ r) = l ++ renderList a r := by
  intro l
  induction l with
  | nil => intro r _; simp
  | cons c l' ih =>
    intro r h
    have hc : ¬ c = '{' := h c (List.mem_cons_self c l')
    rw [List.cons_append, renderList_cons_none (matchToken_not_lbrace hc),
      ih r (fun x hx => h x (List.mem_cons_of_mem _ hx)), List.cons_append]

theorem dropWhile_append_all {α : Type} {p : α → Bool} :
    ∀ {l r : List α}, (∀ c ∈ l, p c = true) → (l ++ r).dropWhile p = r.dropWhile p := by
  intro l
  induction l with
  | nil => intro r _; rfl
  | cons c l' ih =>
    intro r h
    rw [List.cons_append, List.dropWhile, h c (List.mem_cons_self c l')]
    exact ih fun x hx => h x (List.mem_cons_of_mem _ hx)

theorem dropWhile_head_neg {α : Type} {p : α → Bool} {l : List α}
    (h : ∀ c ∈ l.head?, p c = false) : l.dropWhile p = l := by
  cases l with
  | nil => rfl
  | cons c l' =>
    have hc : p c = false := h c rfl
    rw [List.dropWhile, hc]

theorem takeWhile_middle {α : Type} {p : α → Bool} :
    ∀ {l r : List α}, (∀ c ∈ l, p c = true) → (∀ c ∈ r.head?, p c = false) →
      (l ++ r).takeWhile p = l ∧ (l ++ r).dropWhile p = r := by
  intro l
  induction l with
  | nil =>
    intro r _ hr
    refine ⟨?_, dropWhile_head_neg hr⟩
    cases r with
    | nil => rfl
    | cons c r' =>
      have hc : p c = false := hr c rfl
      rw [List.nil_append, List.takeWhile, hc]
  | cons c l' ih =>
    intro r hl hr
    have hc : p c = true := hl c (List.mem_cons_self c l')
    obtain ⟨ht, hd⟩ := ih (fun x hx => hl x (List.mem_cons_of_mem _ hx)) hr
    constructor
    · rw [List.cons_append, List.takeWhile, hc, ht]
    · rw [List.cons_append, List.dropWhile, hc, hd]


theorem replacement_eq (a : List (String × Value)) (k : String) :
    replacement a k.data =
      (match List.lookup k a with
        | some v => v.toText
        | none => "\x7b\x7b" ++ k ++ "\x7d\x7d").data := by
  unfold replacement
  rw [show String.mk k.data = k from rfl]
  cases hl : List.lookup k a with
  | some v => simp [hl]
  | none =>
    simp only [hl]
    rw [String.data_append, String.data_append]
    rw [show ("\x7b\x7b" : String).data = ['{', '{'] from rfl,
      show ("\x7d\x7d" : String).data = ['}', '}'] from rfl]
    simp

theorem matchToken_tok {ws1 k ws2 : String} {tail : List Char}
    (h : chunkWF (Chunk.tok ws1 k ws2) = true) :
    matchToken ('{' :: '{' :: (ws1.data ++ (k.data ++ (ws2.data ++ ('}' :: '}' :: tail)))))
      = some (k.data, tail) := by
  simp only [chunkWF, Bool.and_eq_true, List.all_eq_true, Bool.not_eq_true',
    List.isEmpty_eq_false_iff_exists_mem] at h
  obtain ⟨⟨hws1, hkne, hk⟩, hws2⟩ := h
  have hkchar : ∀ c ∈ k.data, isKeyChar c = true := fun c hc => (hk c hc).1
  have hknospace : ∀ c ∈ k.data, isPySpace c = false := fun c hc => (hk c hc).2
  have hw1space : ∀ c ∈ ws1.data, isPySpace c = true := fun c hc => (hws1 c hc).1
  have hw2space : ∀ c ∈ ws2.data, isPySpace c = true := fun c hc => (hws2 c hc).1
  have hw2nokey : ∀ c ∈ ws2.data, isKeyChar c = false := fun c hc => (hws2 c hc).2
  obtain ⟨kh, kt, hksh⟩ : ∃ h t, k.data = h :: t := by
    cases hkd : k.data with
    | nil =>
      obtain ⟨x, hx⟩ := hkne
      rw [hkd] at hx
      cases hx
    | cons a b => exact ⟨a, b, rfl⟩
  have e1 : (ws1.data ++ (k.data ++ (ws2.data ++ ('}' :: '}' :: tail)))).dropWhile isPySpace
      = k.data ++ (ws2.data ++ ('}' :: '}' :: tail)) := by
    rw [dropWhile_append_all hw1space]
    refine dropWhile_head_neg ?_
    intro c hc
    rw [hksh] at hc
    have hceq : kh = c := by simpa using hc
    subst hceq
    exact hknospace kh (by rw [hksh]; exact List.mem_cons_self _ _)
  have hr : ∀ c ∈ (ws2.data ++ ('}' :: '}' :: tail)).head?, isKeyChar c = false := by
    cases hw : ws2.data with
    | nil =>
      intro c hc
      simp only [hw, List.nil_append, List.head?_cons] at hc
      have hceq : '}' = c := by simpa using hc
      subst hceq
      rfl
    | cons w wt =>
      intro c hc
      simp only [hw, List.cons_append, List.head?_cons] at hc
      have hceq : w = c := by simpa using hc
      subst hceq
      exact hw2nokey w (by rw [hw]; exact List.mem_cons_self _ _)
  obtain ⟨etake, edrop⟩ := takeWhile_middle hkchar hr
  have e3 : (ws2.data ++ ('}' :: '}' :: tail)).dropWhile isPySpace = '}' :: '}' :: tail := by
    rw [dropWhile_append_all hw2space]
    refine dropWhile_head_neg ?_
    intro c hc
    have hceq : '}' = c := by simpa using hc
    subst hceq
    rfl
  have hkne2 : k.data ≠ [] := by rw [hksh]; exact List.cons_ne_nil _ _
  have h4 : (('}' : Char) :: '}' :: tail).take 2 = ['}', '}'] := rfl
  have h5 : (('}' : Char) :: '}' :: tail).drop 2 = tail := rfl
  simp [matchToken, e1, etake, edrop, e3, h4, h5, hkne2]

theorem renderList_chunks {a : List (String × Value)} :
    ∀ (chunks : List Chunk), chunks.all chunkWF = true →
      renderList a (flattenChunks chunks) = renderedChunks a chunks := by
  intro chunks
  induction chunks with
  | nil => intro _; rfl
  | cons ch rest ih =>
    intro h
    simp only [List.all_cons, Bool.and_eq_true] at h
    obtain ⟨hch, hrest⟩ := h
    cases ch with
    | lit s =>
      simp only [flattenChunks, renderedChunks, renderChunk]
      rw [renderList_append_lit s.data (flattenChunks rest) ?_, ih hrest]
      intro c hc
      have := (List.all_eq_true.mp hch) c hc
      simpa using this
    | tok ws1 k ws2 =>
      simp only [flattenChunks, renderedChunks]
      rw [renderList_cons_some (matchToken_tok hch), ih hrest, replacement_eq a k]
      congr 1

/-! ## Helper lemmas about line splitting and the listing loop -/

theorem splitLines_no_newline {l : List Char} (h : ∀ c ∈ l, ¬ c = '\n') :
    splitLines l = [l] := by
  induction l with
  | nil => rfl
  | cons c cs ih =>
    have hc : ¬ c = '\n' := h c (List.mem_cons_self _ _)
    simp only [splitLines, if_neg hc, ih (fun x hx => h x (List.mem_cons_of_mem _ hx))]

theorem splitLines_append_newline {r : List Char} :
    ∀ {l : List Char}, (∀ c ∈ l, ¬ c = '\n') →
      splitLines (l ++ '\n' :: r) = l :: splitLines r := by
  intro l
  induction l with
  | nil => intro _; simp [splitLines]
  | cons c cs ih =>
    intro h
    have hc : ¬ c = '\n' := h c (List.mem_cons_self _ _)
    rw [List.cons_append]
    simp only [splitLines, if_neg hc, ih (fun x hx => h x (List.mem_cons_of_mem _ hx))]

theorem splitLines_ne_nil (cs : List Char) : splitLines cs ≠ [] := by
  induction cs with
  | nil => simp [splitLines]
  | cons c cs' ih =>
    by_cases hc : c = '\n'
    · simp [splitLines, hc]
    · simp only [splitLines, if_neg hc]
      cases h : splitLines cs' with
      | nil => simp
      | cons l ls => simp

theorem splitLines_length (cs : List Char) :
    (splitLines cs).length = cs.count '\n' + 1 := by
  induction cs with
  | nil => rfl
  | cons c cs' ih =>
    by_cases hc : c = '\n'
    · subst hc
      simp only [splitLines, if_pos rfl, List.length_cons, ih, List.count_cons]
      simp
      exact ih
    · simp only [splitLines, if_neg hc]
      cases h : splitLines cs' with
      | nil => exact absurd h (splitLines_ne_nil cs')
      | cons l ls =>
        rw [h] at ih
        simp only [List.length_cons] at ih ⊢
        rw [List.count_cons]
        have : (c == '\n') = false := by simpa using hc
        simp [this]
        omega

theorem listLoop_eq :
    ∀ (docs : List (Option LegalTemplate)) (seen : List String),
      listLoop docs seen
        = dedupKeys ((docs.filterMap id).filter fun t => !(seen.contains t.key)) := by
  intro docs
  induction docs with
  | nil => intro seen; simp [listLoop, dedupKeys]
  | cons d ds ih =>
    intro seen
    cases d with
    | none =>
      show listLoop ds seen = _
      rw [show ((none :: ds : List (Option LegalTemplate)).filterMap id) = ds.filterMap id
        from by simp]
      exact ih seen
    | some t =>
      rw [show ((some t :: ds : List (Option LegalTemplate)).filterMap id)
          = t :: ds.filterMap id from by simp]
      cases hc : seen.contains t.key with
      | true =>
        simp only [listLoop, hc, if_true]
        rw [List.filter_cons]
        simp only [hc, Bool.not_true, Bool.false_eq_true, if_false]
        exact ih seen
      | false =>
        simp only [listLoop, hc, Bool.false_eq_true, if_false]
        rw [List.filter_cons]
        simp only [hc, Bool.not_false, if_true]
        rw [dedupKeys]
        congr 1
        rw [ih (t.key :: seen), List.filter_filter]
        refine congrArg dedupKeys (List.filter_congr ?_)
        intro u _
        simp only [List.contains_cons, Bool.not_or]

/-! ## Claim theorems -/

/-- C1, counterexample: the claim "a placeholder token whose key is
absent is left as the original token text unchanged" is false as
stated — for the token `{{ name }}` (interior whitespace) with an empty
answer map the output is the normalized `{{name}}`, not the original
token text. -/
theorem claim_C1_counterexample :
    render_template_text "Hello {{ name }}" [] = "Hello {{name}}" ∧
    ¬ render_template_text "Hello {{ name }}" [] = "Hello {{ name }}" := by
  constructor
  · decide
  · decide

/-- C1 (amended): a placeholder token whose key is absent from the
answer map is replaced by the normalized token text `{{key}}` (the
token's interior whitespace is dropped) rather than erased or turned
into an error; for a token without interior whitespace — such as
`{{name}}` in `"Hello {{name}}"` — this is the original token text
verbatim. -/
theorem claim_C1 :
    ∀ (a : List (String × Value)) (ws1 k ws2 : String),
      chunkWF (Chunk.tok ws1 k ws2) = true →
      List.lookup k a = none →
      render_template_text ("\x7b\x7b" ++ ws1 ++ k ++ ws2 ++ "\x7d\x7d") a = "\x7b\x7b" ++ k ++ "\x7d\x7d" := by
  intro a ws1 k ws2 hwf hnone
  have hall : [Chunk.tok ws1 k ws2].all chunkWF = true := by simpa using hwf
  have h := renderList_chunks (a := a) [Chunk.tok ws1 k ws2] hall
  unfold render_template_text
  have edata : ("\x7b\x7b" ++ ws1 ++ k ++ ws2 ++ "\x7d\x7d").data
      = flattenChunks [Chunk.tok ws1 k ws2] := by
    simp only [String.data_append, flattenChunks]
    simp
  rw [edata, h]
  simp only [renderedChunks, renderChunk, hnone, List.append_nil]

/-- C1, witness: instance of the amended claim at a whitespace-bearing
token. -/
theorem claim_C1_witness :
    render_template_text "{{ name }}" [] = "{{name}}" := by
  have h := claim_C1 [] " " "name" " " (by decide) (by decide)
  have e1 : ("\x7b\x7b" ++ " " ++ "name" ++ " " ++ "\x7d\x7d" : String) = "{{ name }}" := by decide
  rw [← e1, h]
  decide

/-- C2: on any template assembled from brace-free literal text and
well-formed placeholder tokens, the substitution replaces each token
whose key is present in the answer map by the textual representation of
the mapped value (and echoes `{{key}}` for an absent key), leaving the
literal text unchanged. -/
theorem claim_C2 :
    ∀ (chunks : List Chunk) (a : List (String × Value)),
      chunks.all chunkWF = true →
      render_template_text (String.mk (flattenChunks chunks)) a
        = String.mk (renderedChunks a chunks) := by
  intro chunks a h
  unfold render_template_text
  rw [show (String.mk (flattenChunks chunks)).data = flattenChunks chunks from rfl,
    renderList_chunks chunks h]

/-- C2, witness: substituting `"Hello {{name}}"` with `name = "Juan"`
yields exactly `"Hello Juan"`. -/
theorem claim_C2_witness :
    render_template_text "Hello {{name}}" [("name", Value.str "Juan")] = "Hello Juan" := by
  have h := claim_C2 [Chunk.lit "Hello ", Chunk.tok "" "name" ""]
    [("name", Value.str "Juan")] (by decide)
  have e1 : String.mk (flattenChunks [Chunk.lit "Hello ", Chunk.tok "" "name" ""])
      = "Hello {{name}}" := by decide
  have e2 : String.mk (renderedChunks [("name", Value.str "Juan")]
      [Chunk.lit "Hello ", Chunk.tok "" "name" ""]) = "Hello Juan" := by decide
  rw [← e1, h, e2]

/-- C3: for every generation request whose template key matches a
template in the effective catalog, generation succeeds with a document
whose rendered text is the independently substituted body alone when
the independently substituted acknowledgement is blank after trimming
(in particular when the template has no acknowledgement), and is the
body, a blank-line separator, and the acknowledgement otherwise; the
HTML rendering is present exactly when `as_html` is true (the field's
default value). -/
theorem claim_C3 :
    ∀ (db : Option DB) (req : GenerateRequest) (tpl : LegalTemplate),
      (list_templates db).find? (fun t => t.key == req.template_key) = some tpl →
      ∃ doc st, generate_document db req = (Except.ok doc, st) ∧
        (((render_template_text (tpl.acknowledgement.getD "") req.answers).data.any
            fun c => !(isPySpace c)) = false →
          doc.rendered_text = render_template_text tpl.content req.answers) ∧
        (((render_template_text (tpl.acknowledgement.getD "") req.answers).data.any
            fun c => !(isPySpace c)) = true →
          doc.rendered_text = render_template_text tpl.content req.answers ++ "\n\n" ++
            render_template_text (tpl.acknowledgement.getD "") req.answers) ∧
        doc.rendered_html.isSome = req.as_html := by
  intro db req tpl h
  simp only [generate_document, h]
  refine ⟨_, _, rfl, ?_, ?_, ?_⟩
  · intro hblank
    simp [hblank]
  · intro hnb
    simp [hnb]
  · cases has : req.as_html <;> simp [has]

/-- C3, witness: generating `promissory_note` with `as_html = false`
against the fallback catalog. -/
theorem claim_C3_witness :
    ∃ doc st,
      generate_document none
          { template_key := "promissory_note", answers := [], as_html := false }
        = (Except.ok doc, st) ∧
      (((render_template_text (tpl_promissory_note.acknowledgement.getD "") []).data.any
          fun c => !(isPySpace c)) = false →
        doc.rendered_text = render_template_text tpl_promissory_note.content []) ∧
      (((render_template_text (tpl_promissory_note.acknowledgement.getD "") []).data.any
          fun c => !(isPySpace c)) = true →
        doc.rendered_text = render_template_text tpl_promissory_note.content [] ++ "\n\n" ++
          render_template_text (tpl_promissory_note.acknowledgement.getD "") []) ∧
      doc.rendered_html.isSome = false :=
  claim_C3 none { template_key := "promissory_note", answers := [], as_html := false }
    tpl_promissory_note (by rfl)

/-- C4: requesting generation with a template key matching no template
of the effective catalog fails with the error detail
`"Template not found"` and leaves the store unchanged; moreover this is
the only error `generate_document` can produce, and every error leaves
the store unchanged. -/
theorem claim_C4 :
    ∀ (db : Option DB) (req : GenerateRequest),
      ((∀ t ∈ list_templates db, ¬ t.key = req.template_key) →
        generate_document db req = (Except.error "Template not found", db)) ∧
      (∀ e st, generate_document db req = (Except.error e, st) →
        e = "Template not found" ∧ st = db) := by
  intro db req
  constructor
  · intro hall
    have hf : (list_templates db).find? (fun t => t.key == req.template_key) = none := by
      rw [List.find?_eq_none]
      intro t ht
      simpa using hall t ht
    simp [generate_document, hf]
  · intro e st h
    cases hf : (list_templates db).find? (fun t => t.key == req.template_key) with
    | none =>
      simp only [generate_document, hf, Prod.mk.injEq, Except.error.injEq] at h
      exact ⟨h.1.symm, h.2.symm⟩
    | some tpl =>
      simp only [generate_document, hf, Prod.mk.injEq] at h
      exact absurd h.1 (by simp)

/-- C4, witness: the unknown key `does_not_exist` against the fallback
catalog yields the Not-Found error and an unchanged (still unavailable)
store. -/
theorem claim_C4_witness :
    generate_document none
        { template_key := "does_not_exist", answers := [], as_html := true }
      = (Except.error "Template not found", none) :=
  (claim_C4 none
    { template_key := "does_not_exist", answers := [], as_html := true }).1 (by decide)

/-- C5: the listing loop drops every record that fails structural
validation while continuing with the rest, and keeps only the first
occurrence of each key among the surviving records, in encounter
order — it equals the spec-side `dedupKeys` of the validated records. -/
theorem claim_C5 :
    ∀ docs : List (Option LegalTemplate),
      listLoop docs [] = dedupKeys (docs.filterMap id) := by
  intro docs
  rw [listLoop_eq docs []]
  refine congrArg dedupKeys ?_
  calc (docs.filterMap id).filter (fun t => !(([] : List String).contains t.key))
      = (docs.filterMap id).filter (fun _ => true) :=
        List.filter_congr (fun t _ => rfl)
    _ = docs.filterMap id := List.filter_true _

/-- C6: listing templates with the store unavailable — or with an
available store whose records yield zero usable templates (empty, or
every record failing validation) — returns exactly the eight built-in
templates: their keys are the eight distinct built-in keys, with no
duplicate. -/
theorem claim_C6 :
    list_templates none = DEFAULT_TEMPLATES ∧
    (∀ d : DB, listLoop d.legaltemplate [] = [] →
      list_templates (some d) = DEFAULT_TEMPLATES) ∧
    DEFAULT_TEMPLATES.map (fun t => t.key)
      = ["affidavit_of_loss", "deed_of_absolute_sale", "special_power_of_attorney",
         "affidavit_of_support_and_consent", "affidavit_of_discrepancy", "promissory_note",
         "lease_agreement_residential", "consent_to_travel_minor"] ∧
    (DEFAULT_TEMPLATES.map fun t => t.key).Nodup :=
  ⟨rfl, fun d h => by simp [list_templates, h], rfl, by decide⟩

/-- C6, witness: an available store holding a single malformed record
has zero usable templates and falls back to the built-in catalog. -/
theorem claim_C6_witness :
    list_templates (some { legaltemplate := [none], generateddocument := [] })
      = DEFAULT_TEMPLATES :=
  claim_C6.2.1 { legaltemplate := [none], generateddocument := [] } rfl

/-- C7, counterexample: the built-in catalog does not have exactly
seven entries. -/
theorem claim_C7_counterexample : ¬ DEFAULT_TEMPLATES.length = 7 := by decide

/-- C7 (amended): the built-in template catalog holds the fixed content
for exactly eight predefined templates — the length of
`DEFAULT_TEMPLATES` is eight. -/
theorem claim_C7 : DEFAULT_TEMPLATES.length = 8 := rfl

/-- C8: the text-to-HTML conversion splits on line breaks, wraps each
line containing a non-whitespace character as a paragraph element,
emits a line-break element for a blank line, and joins with a line
break in original order: a two-line input with a non-blank first line
and a blank second line yields exactly the paragraph-wrapped first
line, a line separator, and a line-break element. -/
theorem claim_C8 :
    ∀ (l1 l2 : String),
      (∀ c ∈ l1.data, ¬ c = '\n') → (∀ c ∈ l2.data, ¬ c = '\n') →
      (l1.data.any fun c => !(isPySpace c)) = true →
      (l2.data.all isPySpace) = true →
      text_to_html (l1 ++ "\n" ++ l2) = "<p>" ++ l1 ++ "</p>" ++ "\n" ++ "<br/>" := by
  intro l1 l2 h1 h2 h3 h4
  unfold text_to_html html_lines
  have hd : (l1 ++ "\n" ++ l2).data = l1.data ++ '\n' :: l2.data := by
    rw [String.data_append, String.data_append]
    simp
  have h4' : (l2.data.any fun c => !(isPySpace c)) = false := by
    rw [List.any_eq_false]
    intro c hc
    simp [List.all_eq_true.mp h4 c hc]
  rw [hd, splitLines_append_newline h1, splitLines_no_newline h2]
  simp only [List.map_cons, List.map_nil, h3, h4', Bool.false_eq_true, if_true, if_false]
  rw [show joinLines ["<p>" ++ String.mk l1.data ++ "</p>", "<br/>"]
      = ("<p>" ++ String.mk l1.data ++ "</p>") ++ "\n" ++ "<br/>" from rfl]

/-- C8, witness: the two-line input `"Hi\n"` (second line blank). -/
theorem claim_C8_witness :
    text_to_html ("Hi" ++ "\n" ++ "") = "<p>" ++ "Hi" ++ "</p>" ++ "\n" ++ "<br/>" :=
  claim_C8 "Hi" "" (by decide) (by decide) (by decide) (by decide)

/-- C9: startup seeding inserts every entry of the built-in catalog
when the template collection is empty, leaves the collection unchanged
when it is already non-empty, and — run twice in a row — never inserts
a second copy (seeding is idempotent). -/
theorem claim_C9 :
    (∀ d : DB,
      (d.legaltemplate = [] →
        seed_templates_if_empty (some d)
          = some { d with legaltemplate := DEFAULT_TEMPLATES.map some }) ∧
      (¬ d.legaltemplate = [] → seed_templates_if_empty (some d) = some d)) ∧
    (∀ db : Option DB,
      seed_templates_if_empty (seed_templates_if_empty db) = seed_templates_if_empty db) := by
  constructor
  · intro d
    constructor
    · intro he
      simp [seed_templates_if_empty, he]
    · intro hne
      have hlen : ¬ d.legaltemplate.length = 0 := by
        intro h0
        exact hne (List.eq_nil_of_length_eq_zero h0)
      simp [seed_templates_if_empty, hlen]
  · intro db
    cases db with
    | none => rfl
    | some d =>
      by_cases he : d.legaltemplate.length = 0
      · simp [seed_templates_if_empty, he, DEFAULT_TEMPLATES]
      · simp [seed_templates_if_empty, he]

/-- C9, witness: seeding an available, empty store inserts the eight
built-in templates, and seeding again is a no-op. -/
theorem claim_C9_witness :
    seed_templates_if_empty (some { legaltemplate := [], generateddocument := [] })
      = some { legaltemplate := DEFAULT_TEMPLATES.map some, generateddocument := [] } ∧
    seed_templates_if_empty
        (seed_templates_if_empty (some { legaltemplate := [], generateddocument := [] }))
      = seed_templates_if_empty (some { legaltemplate := [], generateddocument := [] }) :=
  ⟨(claim_C9.1 { legaltemplate := [], generateddocument := [] }).1 rfl,
   claim_C9.2 (some { legaltemplate := [], generateddocument := [] })⟩

/-- C10: the conversion produces exactly one output element per input
line — one more element than the number of line-break characters — and
converting the empty string returns a single line-break element
`"<br/>"`, not the empty string. -/
theorem claim_C10 :
    (∀ text : String, (html_lines text).length = text.data.count '\n' + 1) ∧
    text_to_html "" = "<br/>" :=
  ⟨fun text => by simp [html_lines, splitLines_length], rfl⟩
